import Mathlib

/-!
Shallow embedding of the attendance-management core (attendance record model,
session state machine, geofencing and statistics aggregation) together with
proofs and refutations of the specified properties.

Numeric `Date` values are modelled as integer millisecond timestamps; the
JavaScript `Number` values flowing through the geometry are modelled over an
abstract field (instantiated at `ℚ` where decidability is needed), with the
transcendental functions (`Math.sin`, `Math.cos`, `Math.sqrt`, `Math.atan2`,
`Math.PI`) supplied as an explicit bundle of operations.
-/

set_option autoImplicit false

namespace ForSih

/-- The mathematical primitives `calculateDistance` takes from `Math`. -/
structure TrigOps (α : Type) where
  sin : α → α
  cos : α → α
  sqrt : α → α
  atan2 : α → α → α
  pi : α

/-- Embedding of `attendanceSchema.methods.calculateDistance` (haversine on a
sphere of radius 6 371 000 m). -/
def calculateDistance {α : Type} [Field α] (ops : TrigOps α)
    (lat1 lon1 lat2 lon2 : α) : α :=
  let R : α := 6371000
  let φ1 := lat1 * ops.pi / 180
  let φ2 := lat2 * ops.pi / 180
  let Δφ := (lat2 - lat1) * ops.pi / 180
  let Δlon := (lon2 - lon1) * ops.pi / 180
  let a := ops.sin (Δφ / 2) * ops.sin (Δφ / 2) +
    ops.cos φ1 * ops.cos φ2 * ops.sin (Δlon / 2) * ops.sin (Δlon / 2)
  let c := 2 * ops.atan2 (ops.sqrt a) (ops.sqrt (1 - a))
  R * c

/-- A concrete operation bundle over `ℚ` whose `sin` is odd, used to
instantiate hypotheses at a computable input. -/
def ratOps : TrigOps ℚ where
  sin := fun x => x
  cos := fun x => x
  sqrt := fun x => x
  atan2 := fun y _ => y
  pi := 3

/-- Status of one attendance record (`attendanceSchema.status`). -/
inductive AStatus where
  | present
  | absent
  | late
  | excused
deriving DecidableEq

/-- The `location` sub-document of an attendance record; `latitude` and
`longitude` are `Option` because the schema lets them be absent. -/
structure RecordLocation where
  latitude : Option ℚ
  longitude : Option ℚ
deriving DecidableEq

/-- The classroom-side coordinates passed to `isWithinGeofence`. -/
structure Coordinates where
  latitude : ℚ
  longitude : ℚ
deriving DecidableEq

/-- One document of the `Attendance` collection (the fields the verified
operations read). References are modelled as numeric ids. -/
structure Attendance where
  classroom : Nat
  student : Nat
  teacher : Nat
  session : Nat
  status : AStatus
  markedAt : Int
  location : RecordLocation
deriving DecidableEq

/-- JavaScript truthiness of an optional number: `undefined` and `0` are
falsy, every other rational is truthy. -/
def numTruthy : Option ℚ → Bool
  | none => false
  | some v => v != 0

/-- Embedding of `attendanceSchema.methods.isWithinGeofence`: the guard
`!this.location.latitude || !this.location.longitude` returns `false`, else
the haversine distance is compared with the radius. -/
def isWithinGeofence (ops : TrigOps ℚ) (rec : Attendance)
    (classroomLocation : Coordinates) (radius : ℚ) : Bool :=
  if !numTruthy rec.location.latitude || !numTruthy rec.location.longitude then
    false
  else
    calculateDistance ops (rec.location.latitude.getD 0) (rec.location.longitude.getD 0)
      classroomLocation.latitude classroomLocation.longitude ≤ radius

/-- Lifecycle status of an attendance session
(`attendanceSessionSchema.status`). -/
inductive SStatus where
  | scheduled
  | active
  | completed
  | cancelled
deriving DecidableEq

/-- The derived `attendanceWindow {start, end}` sub-document, in epoch
milliseconds; the field `stop` embeds `end`, which is a reserved word. -/
structure AWindow where
  start : Int
  stop : Int
deriving DecidableEq

/-- The session settings the verified operations read
(`settings.attendanceWindowMinutes`). -/
structure Settings where
  attendanceWindowMinutes : Int
deriving DecidableEq

/-- The cached `statistics` sub-document of a session. -/
structure Statistics where
  totalStudents : Nat
  presentCount : Nat
  absentCount : Nat
  lateCount : Nat
  excusedCount : Nat
  attendancePercentage : ℚ
deriving DecidableEq

/-- One `AttendanceSession` document together with the Mongoose bookkeeping
that drives the pre-save hook: `isNew` and the list of modified paths. -/
structure Session where
  id : Nat
  isNew : Bool
  modifiedPaths : List String
  status : SStatus
  startTime : Int
  endTime : Int
  attendanceWindow : AWindow
  settings : Settings
  attendance : List Nat
  statistics : Statistics
deriving DecidableEq

/-- Structural character-list prefix test (used instead of
`String.startsWith`, whose well-founded recursion the kernel cannot
evaluate). -/
def charsPrefix : List Char → List Char → Bool
  | [], _ => true
  | _ :: _, [] => false
  | c :: cs, d :: ds => c == d && charsPrefix cs ds

/-- Prefix test on strings: `strStartsWith s p` is true iff `p` is a prefix
of `s`. -/
def strStartsWith (s p : String) : Bool :=
  charsPrefix p.data s.data

/-- Mongoose `document.isModified(path)`: true iff some recorded modified
path equals `path`, is a strict child of it, or is a strict parent of it. -/
def isModified (s : Session) (path : String) : Bool :=
  s.modifiedPaths.any fun m =>
    m == path || strStartsWith m (path ++ ".") || strStartsWith path (m ++ ".")

/-- Embedding of the schema's pre-save middleware: recompute the attendance
window when the document is new, `startTime` is modified, or the path
`attendanceWindowMinutes` is modified (note: the hook queries the path
`attendanceWindowMinutes`, not `settings.attendanceWindowMinutes`). -/
def preSaveHook (s : Session) : Session :=
  if s.isNew || isModified s "startTime" || isModified s "attendanceWindowMinutes" then
    { s with attendanceWindow :=
        ⟨s.startTime, s.startTime + s.settings.attendanceWindowMinutes * 60 * 1000⟩ }
  else s

/-- Embedding of `document.save()`: run the pre-save middleware, then
persist, which clears `isNew` and the modified-paths bookkeeping. -/
def save (s : Session) : Session :=
  let t := preSaveHook s
  { t with isNew := false, modifiedPaths := [] }

/-- Assignment `session.settings.attendanceWindowMinutes = m` through a
Mongoose setter: it records the full path `settings.attendanceWindowMinutes`
as modified. -/
def setAttendanceWindowMinutes (s : Session) (m : Int) : Session :=
  { s with
    settings := { s.settings with attendanceWindowMinutes := m }
    modifiedPaths := "settings.attendanceWindowMinutes" :: s.modifiedPaths }

/-- Embedding of `methods.isAttendanceWindowOpen`. -/
def isAttendanceWindowOpen (now : Int) (s : Session) : Bool :=
  s.status == SStatus.active &&
    s.attendanceWindow.start ≤ now &&
    now ≤ s.attendanceWindow.stop

/-- Result shape of `canMarkAttendance`. -/
structure MarkCheck where
  canMark : Bool
  reason : Option String
deriving DecidableEq

/-- Embedding of `methods.canMarkAttendance`. -/
def canMarkAttendance (now : Int) (studentId : Nat) (s : Session) : MarkCheck :=
  if !isAttendanceWindowOpen now s then
    ⟨false, some "Attendance window is closed"⟩
  else if s.attendance.contains studentId then
    ⟨false, some "Attendance already marked"⟩
  else
    ⟨true, none⟩

/-- Embedding of `methods.startSession`: set `status`, `startTime` and both
window bounds, then `save()`. -/
def startSession (now : Int) (s : Session) : Session :=
  save { s with
    status := SStatus.active,
    startTime := now,
    attendanceWindow := ⟨now, now + s.settings.attendanceWindowMinutes * 60 * 1000⟩,
    modifiedPaths :=
      "status" :: "startTime" :: "attendanceWindow.start" :: "attendanceWindow.end" ::
        s.modifiedPaths }

/-- Embedding of `methods.endSession`: set `status` and `endTime`, then
`save()`. -/
def endSession (now : Int) (s : Session) : Session :=
  save { s with
    status := SStatus.completed,
    endTime := now,
    modifiedPaths := "status" :: "endTime" :: s.modifiedPaths }

/-- Embedding of `methods.cancelSession`: set `status`, then `save()`. -/
def cancelSession (s : Session) : Session :=
  save { s with
    status := SStatus.cancelled,
    modifiedPaths := "status" :: s.modifiedPaths }

/-- A previously persisted session used as concrete input: `startTime = 0`,
`attendanceWindowMinutes = 5`, window `[0, 300000]`, no pending
modifications. -/
def sessionBase : Session where
  id := 1
  isNew := false
  modifiedPaths := []
  status := SStatus.scheduled
  startTime := 0
  endTime := 3600000
  attendanceWindow := ⟨0, 300000⟩
  settings := ⟨5⟩
  attendance := []
  statistics := ⟨0, 0, 0, 0, 0, 0⟩

/-- An active session whose window is `[0, 300000]` and whose attendance set
already holds student 7. -/
def sessionActive : Session :=
  { sessionBase with status := SStatus.active, attendance := [7] }

/-- Number of elements of `l` equal to `st`. -/
def countStatus (l : List AStatus) (st : AStatus) : Nat :=
  (l.filter (· == st)).length

/-- The four possible record statuses, in declaration order. -/
def allStatuses : List AStatus :=
  [AStatus.present, AStatus.absent, AStatus.late, AStatus.excused]

/-- The aggregation stage `$group: { _id: "$status", count: { $sum: 1 } }`:
one `(status, count)` group per status value that occurs in the input. -/
def groupByStatus (l : List AStatus) : List (AStatus × Nat) :=
  allStatuses.filterMap fun st =>
    if countStatus l st = 0 then none else some (st, countStatus l st)

/-- Embedding of `stats.find(s => s._id === st)?.count || 0`. -/
def findCount (stats : List (AStatus × Nat)) (st : AStatus) : Nat :=
  ((stats.find? fun g => g.1 == st).map Prod.snd).getD 0

/-- Embedding of `stats.reduce((sum, stat) => sum + stat.count, 0)`. -/
def sumCounts (stats : List (AStatus × Nat)) : Nat :=
  stats.foldl (fun sum g => sum + g.2) 0

/-- The accumulation `$sum: { $cond: [{ $eq: ["$_id", st] }, "$count", 0] }`
over the first-stage groups. -/
def condSum (stats : List (AStatus × Nat)) (st : AStatus) : Nat :=
  stats.foldl (fun acc g => acc + if g.1 == st then g.2 else 0) 0

/-- Embedding of `methods.updateStatistics`: aggregate the records of this
session grouped by status, fill the five counters, set the percentage only
when `totalStudents > 0`, then `save()`. -/
def updateStatistics (records : List Attendance) (s : Session) : Session :=
  let stats := groupByStatus ((records.filter fun r => r.session == s.id).map (·.status))
  let total := sumCounts stats
  save { s with
    statistics := {
      totalStudents := total
      presentCount := findCount stats AStatus.present
      absentCount := findCount stats AStatus.absent
      lateCount := findCount stats AStatus.late
      excusedCount := findCount stats AStatus.excused
      attendancePercentage :=
        if 0 < total then (findCount stats AStatus.present : ℚ) / (total : ℚ) * 100
        else s.statistics.attendancePercentage }
    modifiedPaths := "statistics" :: s.modifiedPaths }

/-- Output document shape of `getStudentSummary`. -/
structure StudentSummary where
  total : Nat
  present : Nat
  absent : Nat
  late : Nat
  excused : Nat
  attendancePercentage : ℚ
deriving DecidableEq

/-- The `$match` stage of `statics.getStudentSummary`: always filters by
student, by classroom when given, and by `markedAt` range when both bounds
are given. -/
def matchStage (studentId : Nat) (classroomId : Option Nat)
    (startDate endDate : Option Int) (r : Attendance) : Bool :=
  r.student == studentId &&
    (match classroomId with
      | some c => r.classroom == c
      | none => true) &&
    (match startDate, endDate with
      | some sd, some ed => sd ≤ r.markedAt && r.markedAt ≤ ed
      | _, _ => true)

/-- Embedding of `statics.getStudentSummary`: `$match`, group by status,
re-group everything into a single totals document (`_id: null`, so no
document at all when the input is empty), then `$addFields` the
percentage. -/
def getStudentSummary (records : List Attendance) (studentId : Nat)
    (classroomId : Option Nat) (startDate endDate : Option Int) : List StudentSummary :=
  let matched := records.filter (matchStage studentId classroomId startDate endDate)
  let stats := groupByStatus (matched.map (·.status))
  match stats with
  | [] => []
  | _ =>
    [{ total := sumCounts stats
       present := condSum stats AStatus.present
       absent := condSum stats AStatus.absent
       late := condSum stats AStatus.late
       excused := condSum stats AStatus.excused
       attendancePercentage :=
         (condSum stats AStatus.present : ℚ) / (sumCounts stats : ℚ) * 100 }]

/-- One index declaration of `attendanceSchema`. -/
structure IndexSpec where
  fields : List String
  unique : Bool

/-- The indexes declared on the attendance collection; `schema.index(keys)`
with no options creates a non-unique index, and none of the declarations
passes options. -/
def attendanceIndexes : List IndexSpec :=
  [⟨["classroom", "student"], false⟩,
    ⟨["session"], false⟩,
    ⟨["markedAt"], false⟩,
    ⟨["status"], false⟩,
    ⟨["location.latitude", "location.longitude"], false⟩,
    ⟨["classroom", "markedAt"], false⟩,
    ⟨["student", "markedAt"], false⟩,
    ⟨["teacher", "markedAt"], false⟩]

/-- Numeric encoding of a status for index-key comparison. -/
def statusCode : AStatus → ℚ
  | AStatus.present => 0
  | AStatus.absent => 1
  | AStatus.late => 2
  | AStatus.excused => 3

/-- The value a record holds at an index key path. -/
def fieldVal (r : Attendance) : String → Option ℚ := fun f =>
  if f = "classroom" then some (r.classroom : ℚ)
  else if f = "student" then some (r.student : ℚ)
  else if f = "teacher" then some (r.teacher : ℚ)
  else if f = "session" then some (r.session : ℚ)
  else if f = "markedAt" then some (r.markedAt : ℚ)
  else if f = "status" then some (statusCode r.status)
  else if f = "location.latitude" then r.location.latitude
  else if f = "location.longitude" then r.location.longitude
  else none

/-- Storage-layer insert of an attendance record: rejected with a duplicate
key error iff some **unique** index already holds a record agreeing with the
new one on every key path of that index. -/
def insertRecord (indexes : List IndexSpec) (store : List Attendance)
    (r : Attendance) : Except String (List Attendance) :=
  if indexes.any (fun ix => ix.unique &&
      store.any fun e => ix.fields.all fun f => fieldVal e f == fieldVal r f) then
    Except.error "duplicate key"
  else
    Except.ok (store ++ [r])

/-- A concrete attendance record of student 2 in session 4. -/
def attendanceRec : Attendance :=
  ⟨1, 2, 3, 4, AStatus.present, 50, ⟨some 1, some 2⟩⟩

/-- A session whose cached statistics hold a stale nonzero percentage while
no record exists. -/
def sessionStale : Session :=
  { sessionBase with statistics := ⟨0, 0, 0, 0, 0, 37⟩ }

/-- Five records of session 1: three present, one absent, one late. -/
def records60 : List Attendance :=
  [⟨1, 11, 3, 1, AStatus.present, 0, ⟨some 1, some 1⟩⟩,
    ⟨1, 12, 3, 1, AStatus.present, 0, ⟨some 1, some 1⟩⟩,
    ⟨1, 13, 3, 1, AStatus.present, 0, ⟨some 1, some 1⟩⟩,
    ⟨1, 14, 3, 1, AStatus.absent, 0, ⟨none, none⟩⟩,
    ⟨1, 15, 3, 1, AStatus.late, 0, ⟨some 1, some 1⟩⟩]

/-- The statuses of the records belonging to a session (the `$match` on
`session` followed by grouping on `$status`). -/
def sessionStatuses (records : List Attendance) (s : Session) : List AStatus :=
  (records.filter fun r => r.session == s.id).map (·.status)

lemma countStatus_partition (l : List AStatus) :
    countStatus l AStatus.present + countStatus l AStatus.absent +
      countStatus l AStatus.late + countStatus l AStatus.excused = l.length := by
  induction l with
  | nil => rfl
  | cons a t ih =>
    cases a <;> simp [countStatus, List.filter_cons] at ih ⊢ <;> omega

lemma findCount_groupByStatus (l : List AStatus) (st : AStatus) :
    findCount (groupByStatus l) st = countStatus l st := by
  cases st <;>
    · simp only [groupByStatus, allStatuses, List.filterMap_cons, List.filterMap_nil]
      split_ifs <;> first | rfl | (symm; assumption)

lemma sumCounts_groupByStatus (l : List AStatus) :
    sumCounts (groupByStatus l) = l.length := by
  have hp := countStatus_partition l
  simp only [groupByStatus, allStatuses, List.filterMap_cons, List.filterMap_nil]
  split_ifs <;>
    · simp only [sumCounts, List.foldl_cons, List.foldl_nil]
      omega

lemma condSum_groupByStatus (l : List AStatus) (st : AStatus) :
    condSum (groupByStatus l) st = countStatus l st := by
  cases st <;>
    · simp only [groupByStatus, allStatuses, List.filterMap_cons, List.filterMap_nil]
      split_ifs <;>
        · simp only [condSum, List.foldl_cons, List.foldl_nil]
          first
          | omega
          | (simp; all_goals omega)

lemma groupByStatus_eq_nil_iff (l : List AStatus) :
    groupByStatus l = [] ↔ l = [] := by
  have hp := countStatus_partition l
  simp only [groupByStatus, allStatuses, List.filterMap_cons, List.filterMap_nil]
  split_ifs <;> simp_all <;>
    · rw [← List.length_eq_zero]
      omega

lemma save_statistics (s : Session) : (save s).statistics = s.statistics := by
  simp only [save, preSaveHook]
  split <;> rfl

/-- C7: a record missing a latitude or a longitude is never judged within the
geofence, for every operation bundle, classroom center and radius. -/
theorem isWithinGeofence_missing_coord_false (ops : TrigOps ℚ) (rec : Attendance)
    (classroomLocation : Coordinates) (radius : ℚ)
    (h : rec.location.latitude = none ∨ rec.location.longitude = none) :
    isWithinGeofence ops rec classroomLocation radius = false := by
  rcases h with h | h <;> simp [isWithinGeofence, numTruthy, h]

/-- C7 witness: a concrete record with a missing latitude is outside every
fence. -/
theorem isWithinGeofence_missing_coord_false_witness :
    isWithinGeofence ratOps ⟨1, 2, 3, 4, .present, 0, ⟨none, some 10⟩⟩ ⟨0, 10⟩ 1000 = false :=
  isWithinGeofence_missing_coord_false ratOps _ _ _ (Or.inl rfl)

/-- C8: `calculateDistance` is symmetric in its two coordinate pairs whenever
the supplied `sin` is an odd function (as `Math.sin` is). -/
theorem calculateDistance_symm {α : Type} [Field α] (ops : TrigOps α)
    (hodd : ∀ x, ops.sin (-x) = -ops.sin x) (lat1 lon1 lat2 lon2 : α) :
    calculateDistance ops lat1 lon1 lat2 lon2 =
      calculateDistance ops lat2 lon2 lat1 lon1 := by
  simp only [calculateDistance]
  rw [show (lat1 - lat2) * ops.pi / 180 = -((lat2 - lat1) * ops.pi / 180) from by ring,
    show (lon1 - lon2) * ops.pi / 180 = -((lon2 - lon1) * ops.pi / 180) from by ring]
  simp only [neg_div, hodd]
  ring_nf

/-- C8 witness: symmetry evaluated at a concrete operation bundle and concrete
coordinates. -/
theorem calculateDistance_symm_witness :
    calculateDistance ratOps 1 2 3 4 = calculateDistance ratOps 3 4 1 2 :=
  calculateDistance_symm ratOps (fun _ => rfl) 1 2 3 4

/-- C9: a record whose latitude or longitude is the valid coordinate `0` is
treated exactly like a record with a missing coordinate: `isWithinGeofence`
returns `false` for every operation bundle, center and radius. -/
theorem isWithinGeofence_zero_coord_false (ops : TrigOps ℚ) (rec : Attendance)
    (classroomLocation : Coordinates) (radius : ℚ)
    (h : rec.location.latitude = some 0 ∨ rec.location.longitude = some 0) :
    isWithinGeofence ops rec classroomLocation radius = false := by
  rcases h with h | h <;> simp [isWithinGeofence, numTruthy, h]

/-- C9 witness: a record at (0, 0) with the classroom centred at (0, 0) — the
point is inside the fence (distance 0 ≤ radius), yet the check says `false`. -/
theorem isWithinGeofence_zero_coord_false_witness :
    calculateDistance ratOps (0 : ℚ) 0 0 0 ≤ 100 ∧
      isWithinGeofence ratOps ⟨1, 2, 3, 4, .present, 0, ⟨some 0, some 0⟩⟩ ⟨0, 0⟩ 100 = false :=
  ⟨by norm_num [calculateDistance, ratOps], isWithinGeofence_zero_coord_false ratOps _ _ _ (Or.inl rfl)⟩

/-- C1: the pre-save hook tests `isModified('attendanceWindowMinutes')`, but
the setting lives at the path `settings.attendanceWindowMinutes`, so saving a
session after changing only the window length leaves the stale window: with
`startTime = 0` and the minutes changed from 5 to 10, the saved window end is
still 300000 instead of `startTime + 10 minutes = 600000`. -/
theorem save_after_windowMinutes_change_keeps_stale_window :
    (save (setAttendanceWindowMinutes sessionBase 10)).settings.attendanceWindowMinutes = 10 ∧
      (save (setAttendanceWindowMinutes sessionBase 10)).attendanceWindow.stop = 300000 ∧
      (save (setAttendanceWindowMinutes sessionBase 10)).attendanceWindow.stop ≠
        sessionBase.startTime + 10 * 60 * 1000 := by
  refine ⟨rfl, rfl, ?_⟩
  decide

/-- C3 counterexample: `startSession` on an already-completed session does not
fail with `InvalidTransition` leaving the status unchanged — it silently
re-activates the session. -/
theorem startSession_on_completed_reactivates :
    (startSession 100 { sessionBase with status := SStatus.completed }).status =
        SStatus.active ∧
      (startSession 100 { sessionBase with status := SStatus.completed }).status ≠
        SStatus.completed := by
  constructor
  · rfl
  · decide

/-- C3 amended: `startSession` unconditionally moves every session to
`active`, sets `startTime` to now and recomputes the attendance window to
`[now, now + attendanceWindowMinutes]`; it never checks the current status
and cannot fail. -/
theorem startSession_sets_active_and_window (now : Int) (s : Session) :
    (startSession now s).status = SStatus.active ∧
      (startSession now s).startTime = now ∧
      (startSession now s).attendanceWindow =
        ⟨now, now + s.settings.attendanceWindowMinutes * 60 * 1000⟩ := by
  refine ⟨?_, ?_, ?_⟩ <;>
    · simp only [startSession, save, preSaveHook]
      split <;> rfl

/-- C4 counterexample: `cancelSession` on a completed (terminal) session is
not a no-op error — it changes the status to `cancelled`. -/
theorem cancelSession_on_completed_cancels :
    (cancelSession { sessionBase with status := SStatus.completed }).status =
        SStatus.cancelled ∧
      (cancelSession { sessionBase with status := SStatus.completed }).status ≠
        SStatus.completed := by
  constructor
  · rfl
  · decide

/-- C4 amended: no transition is guarded: `cancelSession` sets `cancelled`
and `endSession` sets `completed` (and `endTime = now`) from every starting
status, terminal ones included, so neither `completed` nor `cancelled` is
actually terminal. -/
theorem endSession_cancelSession_unconditional (now : Int) (s : Session) :
    (cancelSession s).status = SStatus.cancelled ∧
      (endSession now s).status = SStatus.completed ∧
      (endSession now s).endTime = now := by
  refine ⟨?_, ?_, ?_⟩ <;>
    · simp only [cancelSession, endSession, save, preSaveHook]
      split <;> rfl

/-- C6: `canMarkAttendance` answers "Attendance window is closed" whenever
the window is not open — in particular on an `active` session before the
window start or after the window end — answers "Attendance already marked"
when the window is open and the student is in the attendance set, and allows
marking otherwise. -/
theorem canMarkAttendance_spec (now : Int) (studentId : Nat) (s : Session) :
    (isAttendanceWindowOpen now s = false →
      canMarkAttendance now studentId s = ⟨false, some "Attendance window is closed"⟩) ∧
    (isAttendanceWindowOpen now s = true → studentId ∈ s.attendance →
      canMarkAttendance now studentId s = ⟨false, some "Attendance already marked"⟩) ∧
    (isAttendanceWindowOpen now s = true → studentId ∉ s.attendance →
      canMarkAttendance now studentId s = ⟨true, none⟩) ∧
    (s.status = SStatus.active →
      now < s.attendanceWindow.start ∨ s.attendanceWindow.stop < now →
      canMarkAttendance now studentId s = ⟨false, some "Attendance window is closed"⟩) := by
  refine ⟨?_, ?_, ?_, ?_⟩
  · intro h
    simp [canMarkAttendance, h]
  · intro h h2
    simp [canMarkAttendance, h, h2]
  · intro h h2
    simp [canMarkAttendance, h, h2]
  · intro hst h
    have hopen : isAttendanceWindowOpen now s = false := by
      simp [isAttendanceWindowOpen, hst]
      omega
    simp [canMarkAttendance, hopen]

/-- C6 witness: the four behaviours at concrete sessions and instants —
scheduled session (closed), active session with the student already marked,
active session with a new student, and an active session queried after the
window end. -/
theorem canMarkAttendance_spec_witness :
    canMarkAttendance 0 7 sessionBase = ⟨false, some "Attendance window is closed"⟩ ∧
      canMarkAttendance 100 7 sessionActive = ⟨false, some "Attendance already marked"⟩ ∧
      canMarkAttendance 100 8 sessionActive = ⟨true, none⟩ ∧
      canMarkAttendance 400000 8 sessionActive = ⟨false, some "Attendance window is closed"⟩ :=
  ⟨(canMarkAttendance_spec 0 7 sessionBase).1 (by decide),
    (canMarkAttendance_spec 100 7 sessionActive).2.1 (by decide) (by decide),
    (canMarkAttendance_spec 100 8 sessionActive).2.2.1 (by decide) (by decide),
    (canMarkAttendance_spec 400000 8 sessionActive).2.2.2 (by decide)
      (Or.inr (by decide))⟩

/-- C5 counterexample: recomputing statistics over an empty record set does
not yield percentage 0 — a session carrying a stale percentage of 37 keeps
it, because the assignment is skipped when `totalStudents = 0`. -/
theorem updateStatistics_empty_keeps_stale_percentage :
    (updateStatistics [] sessionStale).statistics.attendancePercentage = 37 ∧
      (37 : ℚ) ≠ 0 := by
  constructor
  · rfl
  · norm_num

/-- C5 amended: `updateStatistics` derives the five counters from the
session's records grouped by status, and assigns
`attendancePercentage = present / total * 100` only when `total > 0`,
leaving the previous cached percentage untouched when `total = 0`; on the
fixture {present×3, absent×1, late×1} the percentage is 60. -/
theorem updateStatistics_spec (records : List Attendance) (s : Session) :
    (updateStatistics records s).statistics =
      { totalStudents := (sessionStatuses records s).length
        presentCount := countStatus (sessionStatuses records s) AStatus.present
        absentCount := countStatus (sessionStatuses records s) AStatus.absent
        lateCount := countStatus (sessionStatuses records s) AStatus.late
        excusedCount := countStatus (sessionStatuses records s) AStatus.excused
        attendancePercentage :=
          if 0 < (sessionStatuses records s).length then
            (countStatus (sessionStatuses records s) AStatus.present : ℚ) /
              ((sessionStatuses records s).length : ℚ) * 100
          else s.statistics.attendancePercentage } ∧
      (updateStatistics records60 sessionBase).statistics.attendancePercentage = 60 := by
  constructor
  · simp only [updateStatistics, save_statistics, findCount_groupByStatus,
      sumCounts_groupByStatus, sessionStatuses]
  · simp only [updateStatistics, save_statistics, findCount_groupByStatus,
      sumCounts_groupByStatus]
    norm_num [sessionStatuses, records60, sessionBase, countStatus, List.filter, List.map,
      show (AStatus.absent == AStatus.present) = false from rfl,
      show (AStatus.late == AStatus.present) = false from rfl,
      show (AStatus.present == AStatus.present) = true from rfl]

/-- C10: `getStudentSummary` yields no row at all when no record matches the
filters (rather than an all-zero summary), and every row it does yield has a
positive total. -/
theorem getStudentSummary_no_match_no_rows (records : List Attendance)
    (studentId : Nat) (classroomId : Option Nat) (startDate endDate : Option Int) :
    (getStudentSummary records studentId classroomId startDate endDate = [] ↔
      records.filter (matchStage studentId classroomId startDate endDate) = []) ∧
    (getStudentSummary records studentId classroomId startDate endDate).all
      (fun g => decide (0 < g.total)) = true := by
  constructor
  · have h1 : (getStudentSummary records studentId classroomId startDate endDate = []) ↔
        groupByStatus ((records.filter
          (matchStage studentId classroomId startDate endDate)).map (·.status)) = [] := by
      simp only [getStudentSummary]
      cases h : groupByStatus ((records.filter
          (matchStage studentId classroomId startDate endDate)).map (·.status)) with
      | nil => simp
      | cons a t => simp
    rw [h1, groupByStatus_eq_nil_iff, List.map_eq_nil_iff]
  · simp only [getStudentSummary]
    cases h : groupByStatus ((records.filter
        (matchStage studentId classroomId startDate endDate)).map (·.status)) with
    | nil => simp
    | cons a t =>
      simp only [List.all_cons, List.all_nil, Bool.and_true, decide_eq_true_eq]
      rw [← h, sumCounts_groupByStatus]
      rcases Nat.eq_zero_or_pos ((records.filter
          (matchStage studentId classroomId startDate endDate)).map (·.status)).length with
        h0 | h0
      · rw [List.length_eq_zero] at h0
        rw [h0] at h
        simp [groupByStatus, allStatuses, countStatus] at h
      · exact h0

/-- C2 counterexample: the in-memory check lets a student mark, and the
storage layer then accepts the same (session, student) record twice — the
second insert does not fail with a duplicate error, leaving two records for
the pair. -/
theorem duplicate_attendance_inserts_both_succeed :
    (canMarkAttendance 100 2 sessionActive).canMark = true ∧
      insertRecord attendanceIndexes [] attendanceRec =
        Except.ok [attendanceRec] ∧
      insertRecord attendanceIndexes [attendanceRec] attendanceRec =
        Except.ok [attendanceRec, attendanceRec] ∧
      (([attendanceRec, attendanceRec].filter fun e =>
        e.session == 4 && e.student == 2).length = 2) := by
  refine ⟨by decide, rfl, rfl, by decide⟩

/-- C2 amended: every index declared on the attendance collection is
non-unique, so the storage layer never rejects an insert — uniqueness of the
(session, student) pair is not enforced at the storage layer, only by the
in-memory `canMarkAttendance` check. -/
theorem attendanceIndexes_not_unique_insert_never_fails :
    attendanceIndexes.all (fun ix => !ix.unique) = true ∧
      ∀ (store : List Attendance) (r : Attendance),
        insertRecord attendanceIndexes store r = Except.ok (store ++ [r]) := by
  refine ⟨rfl, fun store r => ?_⟩
  simp [insertRecord, attendanceIndexes]

end ForSih
